import Mathlib

/-!
Verification of the balena-supervisor reconciliation core against its
natural-language specification.  The definitions below are a shallow
embedding of the TypeScript sources:

* `UpdateLock`   embeds `src/lib/update-lock.ts` (advisory lock files,
  the module-global `locksTaken` registry and `dispose`).
* `ApplyLoop`    embeds the apply-loop pieces of `src/device-state.ts`
  (`healthcheck`, `applyError`).
* `StateStore`   embeds `validateState` and `setTarget` from
  `src/device-state.ts`.
* `DeviceApi`    embeds the v2 control-API handlers from
  `src/device-api/v2.ts` (service actions, purge, restart, state and
  listing endpoints) and the reboot and shutdown handler
  `rebootOrShutdown` from `src/device-state.ts`.

Asynchronous code is modelled by explicit state passing: the outcomes of
the filesystem, of the container runtime and of collaborator modules that
are not part of the analysed sources are inputs of the embedded
functions, and the side effects a handler performs (executor
invocations, lock file operations, dbus calls) are returned as explicit
event lists.
-/

namespace UpdateLock

/-- Outcome of one `lockFile.lockAsync` attempt on a lock file path. -/
inductive FileOutcome
  | success
  | alreadyLocked
  | enoent
deriving DecidableEq, Repr

/-- Outcome of the thunk passed to `lock`. -/
inductive ThunkOutcome
  | ok
  | err (msg : String)
deriving DecidableEq, Repr

/-- Result of a `lock` call. -/
inductive LockCallResult
  | ok
  | updatesLocked
  | thunkErr (msg : String)
deriving DecidableEq, Repr

/-- From `update-lock.ts` `lockPath`: the per-service lock directory,
joining the base path `/tmp/balena-supervisor/services` with the app id
and the service name.  `getPathOnHost` only prepends the host root mount
point, which we model as the identity. -/
def lockPath (appId : Nat) (serviceName : String) : String :=
  "/tmp/balena-supervisor/services/" ++ toString appId ++ "/" ++ serviceName

/-- From `update-lock.ts` `lockFilesOnHost`: both lock files for one
service, in source order `updates.lock` then `resin-updates.lock`. -/
def lockFilesOnHost (appId : Nat) (serviceName : String) : List String :=
  [lockPath appId serviceName ++ "/updates.lock",
   lockPath appId serviceName ++ "/resin-updates.lock"]

/-- JavaScript object key insertion: `locksTaken[f] = true` keeps the
existing insertion position when the key is already present and appends
it at the end otherwise. -/
def registryInsert (reg : List String) (f : String) : List String :=
  if f ∈ reg then reg else reg ++ [f]

/-- Sequential acquisition loop of `lock`: `mapSeries` over the
enumerated services, inner `mapSeries` over the two lock files of each
service.  Arguments: the remaining lock file paths, the module-global
`locksTaken` registry, the files acquired so far by this call, the
pre-unlink operations issued so far (`force` unlinks existing lock files
before taking them).  Returns the registry, the acquired files, the
pre-unlinks and whether an already-locked error interrupted the loop
(`catchReturn(ENOENT, undefined)` swallows missing-file errors). -/
def acquireFiles (force : Bool) (fs : String → FileOutcome) :
    List String → List String → List String → List String →
    List String × List String × List String × Bool
  | [], reg, acq, pre => (reg, acq, pre, false)
  | f :: rest, reg, acq, pre =>
      let pre' := if force then pre ++ [f] else pre
      match fs f with
      | .success => acquireFiles force fs rest (registryInsert reg f) (acq ++ [f]) pre'
      | .enoent => acquireFiles force fs rest reg acq pre'
      | .alreadyLocked => (reg, acq, pre', true)

/-- Result of a full `lock(appId, opts, fn)` run. -/
structure RunResult where
  /-- outcome propagated to the caller -/
  result : LockCallResult
  /-- final contents of the module-global `locksTaken` registry -/
  registry : List String
  /-- lock files this call acquired, in acquisition order -/
  acquired : List String
  /-- `unlockAsync` calls issued by the `force` pre-unlink -/
  preUnlinked : List String
  /-- `unlockAsync` calls issued by `dispose`, in issuance order:
  `dispose` maps over `_.keys(locksTaken)`, which is registry insertion
  order, deleting each key and unlocking it -/
  released : List String
deriving DecidableEq, Repr

/-- Shallow embedding of `lock` from `update-lock.ts`, sequential
semantics.  `initialRegistry` is the content of the module-global
`locksTaken` at entry (lock files possibly registered by a different
`lock` call), `dirListing` the result of `fs.readdir` on the app lock
directory (`none` models ENOENT, caught by `catchReturn(ENOENT, [])`),
`fs` the outcome of `lockAsync` per path and `thunk` the outcome of the
protected function.

* `appId == null`: the thunk runs without any advisory locking.
* otherwise both lock files of every listed service are taken in order;
  an already-locked error triggers `dispose(release)` (which unlocks
  every key of `locksTaken` and empties it) and the call fails with
  `UpdatesLocked`; ENOENT is ignored.
* on success the thunk runs and the Bluebird disposer runs `dispose`,
  whether the thunk returned or threw. -/
def runLock (initialRegistry : List String) (appId : Option Nat) (force : Bool)
    (dirListing : Option (List String)) (fs : String → FileOutcome)
    (thunk : ThunkOutcome) : RunResult :=
  match appId with
  | none =>
      { result := match thunk with | .ok => .ok | .err m => .thunkErr m
        registry := initialRegistry, acquired := [], preUnlinked := [], released := [] }
  | some a =>
      let services := dirListing.getD []
      let files := (services.map (lockFilesOnHost a)).flatten
      match acquireFiles force fs files initialRegistry [] [] with
      | (reg, acq, pre, failed) =>
          if failed then
            { result := .updatesLocked, registry := [], acquired := acq,
              preUnlinked := pre, released := reg }
          else
            { result := match thunk with | .ok => .ok | .err m => .thunkErr m
              registry := [], acquired := acq, preUnlinked := pre, released := reg }

end UpdateLock

namespace ApplyLoop

/-- From `device-state.ts` `healthcheck` (lines 330-361).  `sec` and
`nsec` are the `process.hrtime(lastApplyStart)` pair; the cycle time in
milliseconds is `sec * 1000 + nsec / 1e6`. -/
def cycleTimeMs (sec nsec : Nat) : ℚ :=
  (sec : ℚ) * 1000 + (nsec : ℚ) / 1000000

/-- Shallow embedding of `healthcheck`: unmanaged devices skip every
check; otherwise the apply cycle is healthy when no apply is in
progress, or fetches are in progress, or the cycle time minus the time
spent fetching is below twice the poll interval. -/
def healthcheck (unmanaged applyInProgress : Bool) (fetchesInProgress : Nat)
    (sec nsec : Nat) (timeSpentFetching maxPollTime : ℚ) : Bool :=
  if unmanaged then true
  else
    let cycleTimeWithinInterval :=
      decide (cycleTimeMs sec nsec - timeSpentFetching < 2 * maxPollTime)
    (!applyInProgress) || decide (fetchesInProgress > 0) || cycleTimeWithinInterval

/-- Log channels used by `applyError`. -/
inductive LogEv
  | logError
  | logInfo
  | logSystemMessage
deriving DecidableEq, Repr

/-- The apply-loop state read and written by `applyError`. -/
structure LoopState where
  failedUpdates : Nat
  /-- `scheduledApply`, a pending coalesced apply: `(force, delay)` -/
  scheduledApply : Option (Bool × Nat)
deriving DecidableEq, Repr

/-- Observable outcome of one `applyError` call. -/
structure ApplyErrResult where
  failedUpdates : Nat
  /-- intermediate applies rethrow the error to their caller -/
  rethrown : Bool
  /-- `reportCurrentState({ update_failed: true })` issued -/
  reportedUpdateFailed : Bool
  logs : List LogEv
  /-- `triggerApplyTarget({force, delay, initial})` issued: `(force, delay)` -/
  trigger : Option (Bool × Nat)
deriving DecidableEq, Repr

/-- Shallow embedding of `applyError` from `device-state.ts` (lines
736-778).  `locked` states whether the error is an `UpdatesLockedError`;
`backoffIncrement` is `constants.backoffIncrement` and `maxPollTime` the
configured poll interval. -/
def applyError (locked intermediate force : Bool) (st : LoopState)
    (backoffIncrement maxPollTime : Nat) : ApplyErrResult :=
  if intermediate then
    { failedUpdates := st.failedUpdates, rethrown := true,
      reportedUpdateFailed := false, logs := [], trigger := none }
  else
    let fu := st.failedUpdates + 1
    match st.scheduledApply with
    | some _ =>
        { failedUpdates := fu, rethrown := false, reportedUpdateFailed := true,
          logs := if locked then [] else [.logError], trigger := none }
    | none =>
        let delay := min (2 ^ fu * backoffIncrement) maxPollTime
        { failedUpdates := fu, rethrown := false, reportedUpdateFailed := true,
          logs := if locked then [.logSystemMessage, .logInfo] else [.logError],
          trigger := some (force, delay) }

end ApplyLoop

namespace StateStore

/-- The `local` member of an incoming target state.  The `apps` and
`config` payloads are kept opaque (modelled as strings); their
well-formedness checks `isValidAppsObject` and `isValidEnv` live in
`lib/validation` and are passed in as predicates. -/
structure LocalState where
  name : Option String
  apps : Option String
  config : Option String
deriving DecidableEq, Repr

/-- The `dependent` member of an incoming target state. -/
structure DepState where
  apps : Option String
  devices : Option String
deriving DecidableEq, Repr

/-- An incoming target-state value as seen by `validateState`:
either not an object at all, or an object whose `local` member is
missing or not an object (`none`) or present. -/
inductive TState
  | notObject
  | obj (localState : Option LocalState) (dependent : Option DepState)
deriving DecidableEq, Repr

/-- From `device-state.ts` `validateLocalState` (lines 45-57). -/
def validateLocalState (vShortText vApps vEnv : String → Bool)
    (l : LocalState) : Except String Unit :=
  match l.name with
  | some n =>
      if !(vShortText n) then .error "Invalid device name"
      else validateAppsAndConfig vApps vEnv l
  | none => validateAppsAndConfig vApps vEnv l
where
  validateAppsAndConfig (vApps vEnv : String → Bool) (l : LocalState) :
      Except String Unit :=
    match l.apps with
    | none => .error "Invalid apps"
    | some a =>
        if !(vApps a) then .error "Invalid apps"
        else
          match l.config with
          | none => .error "Invalid device configuration"
          | some c =>
              if !(vEnv c) then .error "Invalid device configuration"
              else .ok ()

/-- From `device-state.ts` `validateDependentState` (lines 59-74). -/
def validateDependentState (vDepApps vDepDevices : String → Bool)
    (d : DepState) : Except String Unit :=
  match d.apps with
  | some a =>
      if !(vDepApps a) then .error "Invalid dependent apps"
      else validateDevices vDepDevices d
  | none => validateDevices vDepDevices d
where
  validateDevices (vDepDevices : String → Bool) (d : DepState) :
      Except String Unit :=
    match d.devices with
    | some dev =>
        if !(vDepDevices dev) then .error "Invalid dependent devices"
        else .ok ()
    | none => .ok ()

/-- From `device-state.ts` `validateState` (lines 76-91). -/
def validateState (vShortText vApps vEnv vDepApps vDepDevices : String → Bool) :
    TState → Except String Unit
  | .notObject => .error "State must be an object"
  | .obj none _ => .error "Local state must be an object"
  | .obj (some l) dep =>
      match validateLocalState vShortText vApps vEnv l with
      | .error m => .error m
      | .ok () =>
          match dep with
          | none => .ok ()
          | some d => validateDependentState vDepApps vDepDevices d

/-- The durable target store written by the `setTarget` transaction:
device name, device config target and the application target. -/
structure Store where
  name : Option String
  deviceConfig : String
  targetApps : String
deriving DecidableEq, Repr

/-- Observable outcome of a `setTarget` call. -/
structure SetTargetResult where
  result : Except String Unit
  store : Store
  /-- whether `db.transaction` was entered -/
  txStarted : Bool
  /-- whether `targetStateChanged` was emitted on the global event bus -/
  emittedTargetStateChanged : Bool
deriving Repr

/-- Shallow embedding of `setTarget` from `device-state.ts` (lines
494-533): `validateState` runs before the `targetStateChanged` emission
and before the single `db.transaction` that persists name, device
config and apps; a validation error therefore propagates to the caller
with the store untouched. -/
def setTarget (vShortText vApps vEnv vDepApps vDepDevices : String → Bool)
    (store : Store) (target : TState) : SetTargetResult :=
  match validateState vShortText vApps vEnv vDepApps vDepDevices target with
  | .error m =>
      { result := .error m, store := store, txStarted := false,
        emittedTargetStateChanged := false }
  | .ok () =>
      match target with
      | .notObject =>
          { result := .error "State must be an object", store := store,
            txStarted := false, emittedTargetStateChanged := false }
      | .obj none _ =>
          { result := .error "Local state must be an object", store := store,
            txStarted := false, emittedTargetStateChanged := false }
      | .obj (some l) _ =>
          { result := .ok (),
            store := { name := l.name, deviceConfig := l.config.getD "",
                       targetApps := l.apps.getD "" },
            txStarted := true, emittedTargetStateChanged := true }

end StateStore

namespace DeviceApi

/-- Modelled from the spec: the scope carried by an API key
(`lib/api-keys.ts` is not part of the analysed sources).  A key is
either the cloud key with scope `*` or a scoped key bound to a list of
app ids. -/
inductive Scope
  | star
  | apps (l : List Int)
deriving DecidableEq, Repr

/-- Modelled from the spec: `isScoped` returns true iff the scope is
`*` or every requested app id is in the scope. -/
def isScoped (scope : Scope) (appIds : List Int) : Bool :=
  match scope with
  | .star => true
  | .apps l => appIds.all (fun i => l.contains i)

/-- Numeric value of a decimal digit character. -/
def digitVal (c : Char) : Option Nat :=
  if '0' ≤ c ∧ c ≤ '9' then some (c.toNat - '0'.toNat) else none

/-- Decimal parse of a nonempty all-digit character list. -/
def parseNatDigits (l : List Char) : Option Nat :=
  if l.isEmpty then none
  else l.foldl (fun acc c =>
      match acc, digitVal c with
      | some n, some d => some (n * 10 + d)
      | _, _ => none) (some 0)

/-- Modelled from the spec: `checkInt` from `lib/validation.ts` (not
part of the analysed sources) parses its argument as an integer and is
undefined on non-numeric input; the boundary behavior in the spec has
`/v2/applications/123invalid/state` rejected with 400, so a trailing
non-digit makes the whole parse fail. -/
def checkInt (s : String) : Option Int :=
  match s.toList with
  | '-' :: rest => (parseNatDigits rest).map (fun n => -(n : Int))
  | l => (parseNatDigits l).map (fun n => (n : Int))

/-- JavaScript falsiness of the `checkInt` result as used by the guard
`if (!appId)`: `undefined` and `0` are falsy, every other integer is
truthy. -/
def jsFalsy : Option Int → Bool
  | none => true
  | some n => n == 0

/-- A current or target service as the v2 handlers see it. -/
structure Service where
  appId : Int
  serviceName : String
  imageId : Int
  serviceId : Int
  releaseId : Int
  containerId : Option String
  status : String
deriving DecidableEq, Repr

/-- One application: its services keyed by the app id in the
surrounding map. -/
structure App where
  services : List Service
deriving DecidableEq, Repr

/-- Body of a service-action request. -/
structure Body where
  imageId : Option Int
  serviceName : Option String
  force : Bool
deriving DecidableEq, Repr

/-- Composition-step actions referenced by the v2 handlers. -/
inductive Action
  | start
  | stop
  | restart
  | fetch
  | updateMetadata
  | noop
  | kill
  | remove
deriving DecidableEq, Repr

/-- A composition step as built by `generateStep(action, {current,
target, wait: true})` in `handleServiceAction`. -/
structure Step where
  action : Action
  current : Service
  target : Option Service
  wait : Bool
deriving DecidableEq, Repr

/-- Modelled from the spec: `generateStep` from
`compose/composition-steps.ts` (not part of the analysed sources)
simply tags the payload with the action. -/
def generateStep (a : Action) (current : Service) (target : Option Service)
    (wait : Bool) : Step :=
  { action := a, current := current, target := target, wait := wait }

/-- Modelled from the spec (§4.5): the always-lock-free actions; the
step executor in `compose/composition-steps.ts` (not part of the
analysed sources) wraps every other step in `lock(appId, force, thunk)`,
while `fetch`, `updateMetadata`, `noop` and the control-API `start`
action run without taking the advisory lock. -/
def lockFreeActions : List Action :=
  [.fetch, .updateMetadata, .noop, .start]

/-- Modelled from the spec (§4.5): the advisory locks the step executor
takes for one step. -/
def stepAdvisoryLocks (step : Step) : List Int :=
  if lockFreeActions.contains step.action then [] else [step.current.appId]

/-- Side effects of a service-action handler run. -/
inductive Ev
  | setVolatile (imageId : Int) (running : Bool)
  | execStep (step : Step) (force : Bool)
deriving DecidableEq, Repr

/-- The executor invocations of a handler run. -/
def execSteps (evs : List Ev) : List Step :=
  evs.filterMap fun e =>
    match e with
    | .execStep st _ => some st
    | _ => none

/-- Modelled from the spec (§4.5): all advisory locks taken while the
executor processes the steps emitted by a handler run. -/
def advisoryLocksTaken (evs : List Ev) : List Int :=
  ((execSteps evs).map stepAdvisoryLocks).flatten

/-- An HTTP response as produced by the embedded handlers. -/
inductive Resp
  | jsonRes (status : Nat) (message : String)
  | sendRes (status : Nat) (body : String)
  | nextErr (message : String)
deriving DecidableEq, Repr

/-- The HTTP status of a response (`none` when the error was forwarded
to the express error middleware via `next`). -/
def Resp.status : Resp → Option Nat
  | .jsonRes s _ => some s
  | .sendRes s _ => some s
  | .nextErr _ => none

/-- Modelled from the spec: the app-not-found text from
`lib/messages.ts` (not part of the analysed sources). -/
def appNotFoundMessage : String :=
  "App not found: an app needs to be installed for this endpoint to work"

/-- Modelled from the spec: the service-not-found text from
`lib/messages.ts` (not part of the analysed sources). -/
def serviceNotFoundMessage : String :=
  "Service not found"

/-- Modelled from the spec: the input-error text from
`lib/messages.ts` (not part of the analysed sources). -/
def v2ServiceEndpointInputErrorMessage : String :=
  "Either serviceName or imageId must be provided"

/-- Shallow embedding of `handleServiceAction` from `device-api/v2.ts`
(lines 60-132).  `currentApps` is the resolved
`applicationManager.getCurrentApps()` map and `targetApp` the resolved
`getApp(appId)` target application.  The returned event list contains
the `setTargetVolatileForService` call and the single
`applicationManager.executeStep` invocation. -/
def handleServiceAction (action : Action) (paramAppId : String) (body : Body)
    (scope : Scope) (currentApps : Int → Option App) (targetApp : App) :
    Resp × List Ev :=
  let appIdOpt := checkInt paramAppId
  if jsFalsy appIdOpt then
    (.jsonRes 400 "Missing app id", [])
  else
    let appId := appIdOpt.getD 0
    if !(isScoped scope [appId]) then
      (.jsonRes 401 "Application is not available", [])
    else
      match currentApps appId with
      | none => (.sendRes 404 appNotFoundMessage, [])
      | some app =>
          if body.imageId.isNone && body.serviceName.isNone then
            (.nextErr v2ServiceEndpointInputErrorMessage, [])
          else
            let service :=
              match body.imageId with
              | some iid => app.services.find? (fun (s : Service) => s.imageId == iid)
              | none => app.services.find? (fun (s : Service) => some s.serviceName == body.serviceName)
            let targetService :=
              match body.imageId with
              | some iid => targetApp.services.find? (fun (s : Service) => s.imageId == iid)
              | none => targetApp.services.find? (fun (s : Service) => some s.serviceName == body.serviceName)
            match service with
            | none => (.sendRes 404 serviceNotFoundMessage, [])
            | some svc =>
                (.sendRes 200 "OK",
                 [.setVolatile svc.imageId (action != .stop),
                  .execStep (generateStep action svc targetService true) body.force])

/-- Side effect of the purge and app-restart handlers: the `doPurge`
and `doRestart` calls from `device-api/common.ts` (not part of the
analysed sources), recorded with their arguments. -/
inductive AppEv
  | doPurge (appId : Int) (force : Bool)
  | doRestart (appId : Int) (force : Bool)
deriving DecidableEq, Repr

/-- Shallow embedding of the `/v2/applications/:appId/purge` handler
from `device-api/v2.ts` (lines 137-164): app id guard, scope guard,
then `doPurge` (modelled from the spec as an event since
`device-api/common.ts` is not part of the analysed sources). -/
def purgeHandler (paramAppId : String) (bodyForce : Bool) (scope : Scope) :
    Resp × List AppEv :=
  let appIdOpt := checkInt paramAppId
  if jsFalsy appIdOpt then
    (.jsonRes 400 "Missing app id", [])
  else
    let appId := appIdOpt.getD 0
    if !(isScoped scope [appId]) then
      (.jsonRes 401 "Application is not available", [])
    else
      (.sendRes 200 "OK", [.doPurge appId bodyForce])

/-- Shallow embedding of the `/v2/applications/:appId/restart` handler
from `device-api/v2.ts` (lines 181-208): same guards, then `doRestart`. -/
def appRestartHandler (paramAppId : String) (bodyForce : Bool) (scope : Scope) :
    Resp × List AppEv :=
  let appIdOpt := checkInt paramAppId
  if jsFalsy appIdOpt then
    (.jsonRes 400 "Missing app id", [])
  else
    let appId := appIdOpt.getD 0
    if !(isScoped scope [appId]) then
      (.jsonRes 401 "Application is not available", [])
    else
      (.sendRes 200 "OK", [.doRestart appId bodyForce])

/-- Shallow embedding of the `/v2/applications/:appId/state` handler
from `device-api/v2.ts` (lines 299-351), up to the scope and existence
checks: invalid app id gives 400, an app id absent from the status or
out of the key scope gives 409. -/
def appStateHandler (paramAppId : String) (scope : Scope)
    (statusAppIds : List Int) : Resp :=
  let appIdOpt := checkInt paramAppId
  if jsFalsy appIdOpt then
    .jsonRes 400 ("Invalid application ID: " ++ paramAppId)
  else
    let appId := appIdOpt.getD 0
    if !(statusAppIds.contains appId) || !(isScoped scope [appId]) then
      .jsonRes 409 ("Application ID does not exist: " ++ toString appId)
    else
      .sendRes 200 "state"

/-- One image status row as returned by `images.getStatus()`. -/
structure Img where
  name : String
  appId : Int
  serviceName : String
  imageId : Int
  dockerImageId : Option String
  status : String
  downloadProgress : Option ℚ
deriving DecidableEq, Repr

/-- One `app` db row used by `/v2/applications/state`. -/
structure DBApp where
  appId : Int
  commit : String
  name : String
deriving DecidableEq, Repr

/-- From the `/v2/applications/state` handler (`device-api/v2.ts`
lines 246-260): only apps in the key scope enter the response. -/
def applicationsStateScopedApps (scope : Scope) (apps : List DBApp) :
    List DBApp :=
  apps.filter fun app => isScoped scope [app.appId]

/-- From the `/v2/applications/state` handler (`device-api/v2.ts`
lines 262-264): only images in the key scope enter the response. -/
def applicationsStateScopedImages (scope : Scope) (imgs : List Img) :
    List Img :=
  imgs.filter fun img => isScoped scope [img.appId]

/-- Response of the `/v2/state/status` handler. -/
structure StateStatusResult where
  appState : String
  overallDownloadProgress : Option ℚ
  containers : List Service
  images : List Img
  release : Option String
deriving DecidableEq, Repr

/-- Shallow embedding of the `/v2/state/status` handler from
`device-api/v2.ts` (lines 481-548): services and images are filtered by
the key scope, the first surviving app id selects the single reported
application, and the download progress is averaged over the in-progress
images. -/
def stateStatusHandler (scope : Scope) (pending : Bool)
    (services : List Service) (imgs : List Img)
    (commitForApp : Int → Option String) : StateStatusResult :=
  let containerStates := services.filter fun s => isScoped scope [s.appId]
  let imagesStates := imgs.filter fun i => isScoped scope [i.appId]
  let appIds := containerStates.map (fun s => s.appId)
    ++ imagesStates.map (fun i => i.appId)
  let downloading := imagesStates.filterMap (fun i => i.downloadProgress)
  let overallDownloadProgress :=
    if downloading.length > 0 then
      some (downloading.sum / (downloading.length : ℚ))
    else none
  let appId? := appIds.head?
  let commit := match appId? with
    | none => none
    | some a => commitForApp a
  { appState := if pending then "applying" else "applied"
    overallDownloadProgress := overallDownloadProgress
    containers := containerStates.filter fun c => some c.appId == appId?
    images := imagesStates.filter fun i => some i.appId == appId?
    release := commit }

/-- Response of the `/v2/containerId` handler. -/
inductive ContainerIdResp
  | single (status : Nat) (containerId : Option String)
  | many (status : Nat) (entries : List (String × Option String))
deriving DecidableEq, Repr

/-- Shallow embedding of the `/v2/containerId` handler from
`device-api/v2.ts` (lines 448-479): services are filtered by the key
scope; with a `serviceName` query the matching service is returned (503
when absent), otherwise the map of all scoped services. -/
def containerIdHandler (scope : Scope) (services : List Service)
    (queryServiceName : Option String) : ContainerIdResp :=
  let inScope := services.filter fun s => isScoped scope [s.appId]
  match queryServiceName with
  | some name =>
      match inScope.find? (fun s => s.serviceName == name) with
      | some svc => .single 200 svc.containerId
      | none => .single 503 none
  | none =>
      .many 200 (inScope.map fun s => (s.serviceName, s.containerId))

/-- A target application as read by the `/v2/cleanup-volumes` handler:
its volume names. -/
structure TargetAppVolumes where
  volumes : List String
deriving DecidableEq, Repr

/-- Modelled from the spec: `Volume.generateDockerName` from
`compose/volume.ts` (not part of the analysed sources) joins the app id
and the volume name. -/
def generateDockerName (appId : Int) (name : String) : String :=
  toString appId ++ "_" ++ name

/-- Shallow embedding of the referenced-volume enumeration of the
`/v2/cleanup-volumes` handler from `device-api/v2.ts` (lines 588-610):
apps outside the key scope contribute no referenced volumes. -/
def cleanupVolumesReferenced (scope : Scope)
    (targetApps : List (Int × TargetAppVolumes)) : List String :=
  (targetApps.map fun p =>
    if isScoped scope [p.1] then
      p.2.volumes.map (generateDockerName p.1)
    else []).flatten

/-- Fixture: the `main` service of app 1658654 with `serviceId` 640681,
as in the end-to-end scenario of the spec (§8). -/
def svcMain : Service :=
  { appId := 1658654, serviceName := "main", imageId := 1
    serviceId := 640681, releaseId := 1, containerId := some "abc123"
    status := "Running" }

/-- Fixture: a service of a second application 222222. -/
def svcOther : Service :=
  { appId := 222222, serviceName := "other", imageId := 2
    serviceId := 2, releaseId := 1, containerId := some "def456"
    status := "Running" }

/-- Fixture: application 1658654 with its single `main` service. -/
def appMain : App := { services := [svcMain] }

/-- Fixture: the current-apps map holding only application 1658654. -/
def currentAppsMain : Int → Option App :=
  fun i => if i = 1658654 then some appMain else none

end DeviceApi

namespace RebootApi

/-- Outcome of the `applicationManager.stopAll({force, skipLock})`
collaborator call (`compose/application-manager.ts` is not part of the
analysed sources): it succeeds, fails with `UpdatesLockedError`, or
fails with another error. -/
inductive StopAllOutcome
  | ok
  | updatesLocked (msg : String)
  | otherErr (msg : String)
deriving DecidableEq, Repr

/-- Modelled from the spec (§4.1, §4.5): `stopAll` issues `stop` steps
under the per-service advisory locks, so it fails with `UpdatesLocked`
exactly when a lock file is held and `force` is not set. -/
def stopAllModel (locksHeld force : Bool) : StopAllOutcome :=
  if locksHeld && !force then .updatesLocked "Updates are locked" else .ok

/-- The host primitive addressed by the handler. -/
inductive HostAction
  | reboot
  | shutdown
deriving DecidableEq, Repr

/-- Side effects of a reboot or shutdown request. -/
inductive REv
  | evStopAll (force : Bool)
  | evLogSystem (msg : String)
  | evDbus (a : HostAction)
  | evEmitShutdown
deriving DecidableEq, Repr

/-- Errors surfacing from `executeStepAction`. -/
inductive ApiErr
  | updatesLocked (msg : String)
  | other (msg : String)
deriving DecidableEq, Repr

/-- Shallow embedding of `reboot` and `shutdown` from `device-state.ts`
(lines 647-663): `applicationManager.stopAll` first, then the system
log message, the dbus host primitive, `shuttingDown = true` and the
`shutdown` event.  When `stopAll` throws, nothing after it runs.
Returns the propagated outcome, the events in order and the final value
of `shuttingDown`. -/
def runHostAction (a : HostAction) (force : Bool)
    (stopAll : Bool → StopAllOutcome) :
    Except ApiErr Unit × List REv × Bool :=
  match stopAll force with
  | .ok =>
      (.ok (),
       [.evStopAll force,
        .evLogSystem (match a with
          | .reboot => "Rebooting"
          | .shutdown => "Shutting down"),
        .evDbus a, .evEmitShutdown],
       true)
  | .updatesLocked m => (.error (.updatesLocked m), [.evStopAll force], false)
  | .otherErr m => (.error (.other m), [.evStopAll force], false)

/-- Shallow embedding of the `reboot` and `shutdown` arms of
`executeStepAction` from `device-state.ts` (lines 683-699): on success
the step result is the body `Data: OK, Error: null`. -/
def executeStepAction (a : HostAction) (force : Bool)
    (stopAll : Bool → StopAllOutcome) :
    Except ApiErr (String × Option String) × List REv × Bool :=
  match runHostAction a force stopAll with
  | (.ok (), evs, sd) => (.ok ("OK", none), evs, sd)
  | (.error e, evs, sd) => (.error e, evs, sd)

/-- HTTP result of the reboot and shutdown handler: status, the `Data`
and `Error` body fields, the events and the final `shuttingDown` flag. -/
structure RebootResult where
  status : Nat
  data : String
  error : Option String
  events : List REv
  shuttingDown : Bool
deriving DecidableEq, Repr

/-- Shallow embedding of `rebootOrShutdown` from `device-state.ts`
(lines 100-117), the handler behind the reboot and shutdown routes
(the v2 route registration itself is not part of the analysed sources
and is modelled from the spec table in §6): `force` is the request
`force` flag or the configured `lockOverride`; success answers 202 with
the step result, an `UpdatesLockedError` answers 423 and any other
error answers 500, with the error message in the `Error` field. -/
def rebootOrShutdown (a : HostAction) (bodyForce lockOverride : Bool)
    (stopAll : Bool → StopAllOutcome) : RebootResult :=
  let force := bodyForce || lockOverride
  match executeStepAction a force stopAll with
  | (.ok (d, e), evs, sd) =>
      { status := 202, data := d, error := e, events := evs, shuttingDown := sd }
  | (.error (.updatesLocked m), evs, sd) =>
      { status := 423, data := "", error := some m, events := evs, shuttingDown := sd }
  | (.error (.other m), evs, sd) =>
      { status := 500, data := "", error := some m, events := evs, shuttingDown := sd }

end RebootApi

/-! ## Theorems -/

namespace UpdateLock

theorem registryInsert_mem {reg : List String} {g : String} (f : String)
    (h : g ∈ reg) : g ∈ registryInsert reg f := by
  unfold registryInsert
  split <;> simp [h]

theorem registryInsert_self (reg : List String) (f : String) :
    f ∈ registryInsert reg f := by
  unfold registryInsert
  split
  · assumption
  · simp

/-- The `locksTaken` registry only grows during acquisition. -/
theorem acquireFiles_reg_mono (force : Bool) (fs : String → FileOutcome)
    (files : List String) :
    ∀ (reg acq pre : List String) (g : String), g ∈ reg →
      g ∈ (acquireFiles force fs files reg acq pre).1 := by
  induction files with
  | nil => intro reg acq pre g h; simpa [acquireFiles] using h
  | cons f rest ih =>
      intro reg acq pre g h
      simp only [acquireFiles]
      cases hfs : fs f with
      | success => exact ih _ _ _ g (registryInsert_mem f h)
      | enoent => exact ih _ _ _ g h
      | alreadyLocked => simpa using h

/-- Every file acquired by the call is recorded in the registry. -/
theorem acquireFiles_acq_in_reg (force : Bool) (fs : String → FileOutcome)
    (files : List String) :
    ∀ (reg acq pre : List String),
      (∀ x ∈ acq, x ∈ reg) →
      ∀ g ∈ (acquireFiles force fs files reg acq pre).2.1,
        g ∈ (acquireFiles force fs files reg acq pre).1 := by
  induction files with
  | nil =>
      intro reg acq pre hsub g hg
      simp only [acquireFiles] at hg ⊢
      exact hsub g hg
  | cons f rest ih =>
      intro reg acq pre hsub g hg
      simp only [acquireFiles] at hg ⊢
      cases hfs : fs f with
      | success =>
          rw [hfs] at hg
          refine ih _ _ _ ?_ g hg
          intro x hx
          rcases List.mem_append.mp hx with hx | hx
          · exact registryInsert_mem f (hsub x hx)
          · have hxf : x = f := by simpa using hx
            rw [hxf]
            exact registryInsert_self reg f
      | enoent =>
          rw [hfs] at hg
          exact ih _ _ _ hsub g hg
      | alreadyLocked =>
          rw [hfs] at hg
          exact hsub g hg

/-- Acquisition only fails when some file reports already-locked. -/
theorem acquireFiles_no_fail (force : Bool) (fs : String → FileOutcome)
    (files : List String) (hfs : ∀ f, fs f ≠ .alreadyLocked) :
    ∀ (reg acq pre : List String),
      (acquireFiles force fs files reg acq pre).2.2.2 = false := by
  induction files with
  | nil => intro reg acq pre; simp [acquireFiles]
  | cons f rest ih =>
      intro reg acq pre
      simp only [acquireFiles]
      cases h : fs f with
      | success => exact ih _ _ _
      | enoent => exact ih _ _ _
      | alreadyLocked => exact absurd h (hfs f)

end UpdateLock

namespace UpdateLock

/-- C2 (amended): for every `lock(appId, force, thunk)` call with
non-nil `appId`, if acquiring a per-service advisory lock file fails
with an already-locked error, then every lock file recorded in the
`locksTaken` registry — the files acquired so far by this call together
with any entry already present — is released by `dispose`, the releases
being issued in registry insertion order (acquisition order, not
reverse), and the call fails with `UpdatesLocked`; an ENOENT error
during acquisition is ignored and never produces an `UpdatesLocked`
failure. -/
theorem C2_lock_acquisition_failure (initial : List String) (a : Nat)
    (force : Bool) (dir : Option (List String)) (fs : String → FileOutcome)
    (thunk : ThunkOutcome) :
    ((acquireFiles force fs (((dir.getD []).map (lockFilesOnHost a)).flatten)
        initial [] []).2.2.2 = true →
      (runLock initial (some a) force dir fs thunk).result = .updatesLocked ∧
      (runLock initial (some a) force dir fs thunk).registry = [] ∧
      ∀ g ∈ (runLock initial (some a) force dir fs thunk).acquired,
        g ∈ (runLock initial (some a) force dir fs thunk).released) ∧
    ((∀ f, fs f ≠ .alreadyLocked) →
      (runLock initial (some a) force dir fs thunk).result ≠ .updatesLocked) := by
  have hacq := acquireFiles_acq_in_reg force fs
    (((dir.getD []).map (lockFilesOnHost a)).flatten) initial [] []
    (by intro x hx; simp at hx)
  simp only [runLock]
  rcases hA : acquireFiles force fs
      (((dir.getD []).map (lockFilesOnHost a)).flatten) initial [] []
    with ⟨reg, acq, pre, failed⟩
  rw [hA] at hacq
  simp only at hacq
  cases failed with
  | true =>
      constructor
      · intro _
        refine ⟨rfl, rfl, ?_⟩
        intro g hg
        simp only at hg ⊢
        exact hacq g hg
      · intro hfs
        have := acquireFiles_no_fail force fs
          (((dir.getD []).map (lockFilesOnHost a)).flatten) hfs initial [] []
        rw [hA] at this
        simp at this
  | false =>
      constructor
      · intro h
        simp at h
      · intro _
        cases thunk <;> simp

/-- C9 (amended): after any `lock(appId, opts, thunk)` call with
non-nil `appId` completes — whether the thunk returned, the thunk
threw, or acquisition failed with `UpdatesLocked` — the module-global
`locksTaken` registry is empty and `unlockAsync` has been issued for
every lock file recorded in it, including entries registered before
the call started (by a different lock call); release is not limited to
the files acquired by this call. -/
theorem C9_lock_dispose_clears_registry (initial : List String) (a : Nat)
    (force : Bool) (dir : Option (List String)) (fs : String → FileOutcome)
    (thunk : ThunkOutcome) :
    (runLock initial (some a) force dir fs thunk).registry = [] ∧
    (∀ g ∈ initial, g ∈ (runLock initial (some a) force dir fs thunk).released) ∧
    (∀ g ∈ (runLock initial (some a) force dir fs thunk).acquired,
      g ∈ (runLock initial (some a) force dir fs thunk).released) := by
  have hmono := acquireFiles_reg_mono force fs
    (((dir.getD []).map (lockFilesOnHost a)).flatten) initial [] []
  have hacq := acquireFiles_acq_in_reg force fs
    (((dir.getD []).map (lockFilesOnHost a)).flatten) initial [] []
    (by intro x hx; simp at hx)
  simp only [runLock]
  rcases hA : acquireFiles force fs
      (((dir.getD []).map (lockFilesOnHost a)).flatten) initial [] []
    with ⟨reg, acq, pre, failed⟩
  rw [hA] at hmono hacq
  simp only at hmono hacq
  cases failed with
  | true =>
      exact ⟨rfl, fun g hg => hmono g hg, fun g hg => hacq g hg⟩
  | false =>
      exact ⟨rfl, fun g hg => hmono g hg, fun g hg => hacq g hg⟩

/-- Witness for C2: a concrete run in which the second service is
locked; the two files acquired for the first service are both released
and the call fails with `UpdatesLocked`. -/
theorem C2_lock_acquisition_failure_witness :
    (runLock [] (some 5) false (some ["a", "b"])
        (fun f =>
          if f = "/tmp/balena-supervisor/services/5/b/updates.lock" then
            FileOutcome.alreadyLocked
          else FileOutcome.success) .ok).result = .updatesLocked ∧
    "/tmp/balena-supervisor/services/5/a/updates.lock" ∈
      (runLock [] (some 5) false (some ["a", "b"])
        (fun f =>
          if f = "/tmp/balena-supervisor/services/5/b/updates.lock" then
            FileOutcome.alreadyLocked
          else FileOutcome.success) .ok).released := by
  have h := (C2_lock_acquisition_failure [] 5 false (some ["a", "b"])
    (fun f =>
      if f = "/tmp/balena-supervisor/services/5/b/updates.lock" then
        FileOutcome.alreadyLocked
      else FileOutcome.success) .ok).1 (by decide)
  exact ⟨h.1, h.2.2 "/tmp/balena-supervisor/services/5/a/updates.lock" (by decide)⟩

/-- Counterexample for C2 as stated: the releases issued by `dispose`
after a failed acquisition follow the registry insertion order, which
is the acquisition order, not the reverse acquisition order. -/
theorem C2_release_order_counterexample :
    ((runLock [] (some 5) false (some ["a", "b"])
        (fun f =>
          if f = "/tmp/balena-supervisor/services/5/b/updates.lock" then
            FileOutcome.alreadyLocked
          else FileOutcome.success) .ok).released =
      ["/tmp/balena-supervisor/services/5/a/updates.lock",
       "/tmp/balena-supervisor/services/5/a/resin-updates.lock"]) ∧
    ((runLock [] (some 5) false (some ["a", "b"])
        (fun f =>
          if f = "/tmp/balena-supervisor/services/5/b/updates.lock" then
            FileOutcome.alreadyLocked
          else FileOutcome.success) .ok).released ≠
      (runLock [] (some 5) false (some ["a", "b"])
        (fun f =>
          if f = "/tmp/balena-supervisor/services/5/b/updates.lock" then
            FileOutcome.alreadyLocked
          else FileOutcome.success) .ok).acquired.reverse) ∧
    ((runLock [] (some 5) false (some ["a", "b"])
        (fun f =>
          if f = "/tmp/balena-supervisor/services/5/b/updates.lock" then
            FileOutcome.alreadyLocked
          else FileOutcome.success) .ok).result = .updatesLocked) := by
  refine ⟨by decide, by decide, by decide⟩

/-- Witness for C9: a concrete successful run starting with a registry
entry recorded by a different lock call; the registry ends empty and
that foreign entry was released too. -/
theorem C9_lock_dispose_clears_registry_witness :
    (runLock ["/locked/by/other"] (some 1) false (some ["main"])
        (fun _ => FileOutcome.success) .ok).registry = [] ∧
    "/locked/by/other" ∈
      (runLock ["/locked/by/other"] (some 1) false (some ["main"])
        (fun _ => FileOutcome.success) .ok).released := by
  refine ⟨(C9_lock_dispose_clears_registry ["/locked/by/other"] 1 false
      (some ["main"]) (fun _ => FileOutcome.success) .ok).1,
    (C9_lock_dispose_clears_registry ["/locked/by/other"] 1 false
      (some ["main"]) (fun _ => FileOutcome.success) .ok).2.1
      "/locked/by/other" (by simp)⟩

/-- Counterexample for C9 as stated: a `lock` call with nil `appId`
completes (the thunk returned) without running `dispose`; a lock file
registered by a different concurrent lock call stays in the registry
and no `unlockAsync` is issued for it. -/
theorem C9_nil_appid_counterexample :
    (runLock ["/locked/by/other"] none false none
        (fun _ => FileOutcome.success) .ok).result = .ok ∧
    (runLock ["/locked/by/other"] none false none
        (fun _ => FileOutcome.success) .ok).registry = ["/locked/by/other"] ∧
    (runLock ["/locked/by/other"] none false none
        (fun _ => FileOutcome.success) .ok).released = [] ∧
    (["/locked/by/other"] : List String) ≠ [] := by
  refine ⟨rfl, rfl, rfl, by decide⟩

end UpdateLock

namespace ApplyLoop

/-- C5 (amended): on a managed device (`unmanaged = false`),
`healthcheck()` returns true if and only if `applyInProgress` is false,
or `fetchesInProgress > 0`, or the elapsed time since `lastApplyStart`
minus `timeSpentFetching` is below `2 * maxPollTime`; in particular
whenever an apply is in progress, no fetches are in progress and the
cycle time exceeds that bound, `healthcheck` returns false. -/
theorem C5_healthcheck_iff (applyInProgress : Bool) (fetches sec nsec : Nat)
    (tsf mpt : ℚ) :
    healthcheck false applyInProgress fetches sec nsec tsf mpt = true ↔
      (applyInProgress = false ∨ 0 < fetches ∨
        cycleTimeMs sec nsec - tsf < 2 * mpt) := by
  cases applyInProgress <;>
    simp [healthcheck]

/-- Counterexample for C5 as stated: on an unmanaged device
`healthcheck` returns true even though an apply is in progress, no
fetches are in progress, and the cycle time (100000 s) far exceeds
`2 * maxPollTime` (2000 ms), so the claimed equivalence fails. -/
theorem C5_unmanaged_counterexample :
    healthcheck true true 0 100000 0 0 1000 = true ∧
    ¬((true = false) ∨ (0 : Nat) > 0 ∨
        cycleTimeMs 100000 0 - 0 < 2 * 1000) := by
  constructor
  · rfl
  · intro h
    rcases h with h | h | h
    · exact absurd h (by simp)
    · exact absurd h (by norm_num)
    · rw [cycleTimeMs] at h
      norm_num at h

/-- C6 (amended): for every failed non-intermediate apply with no
`scheduledApply` pending, `failedUpdates` is incremented by one and
another apply is triggered after a delay of
`min(2 ^ failedUpdates * backoffIncrement, maxPollTime)` milliseconds
(using the incremented counter), and an `UpdatesLockedError` is logged
at info level (plus a system message) instead of error level; when a
`scheduledApply` is pending, `failedUpdates` is still incremented but
no new trigger is issued. -/
theorem C6_apply_error_backoff (locked force : Bool) (st : LoopState)
    (backoffIncrement maxPollTime : Nat)
    (hsched : st.scheduledApply = none) :
    (applyError locked false force st backoffIncrement maxPollTime).failedUpdates
        = st.failedUpdates + 1 ∧
    (applyError locked false force st backoffIncrement maxPollTime).trigger
        = some (force,
            min (2 ^ (st.failedUpdates + 1) * backoffIncrement) maxPollTime) ∧
    (locked = true →
      (applyError locked false force st backoffIncrement maxPollTime).logs
        = [.logSystemMessage, .logInfo]) ∧
    (locked = false →
      (applyError locked false force st backoffIncrement maxPollTime).logs
        = [.logError]) := by
  cases locked <;>
    simp [applyError, hsched]

/-- Witness for C6: concrete failed apply with locked error, three
previous failures, increment 500 ms and poll interval 900000 ms; the
counter becomes 4 and a retry is triggered after
`min(2 ^ 4 * 500, 900000) = 8000` ms with an info-level log. -/
theorem C6_apply_error_backoff_witness :
    (applyError true false false ⟨3, none⟩ 500 900000).failedUpdates = 4 ∧
    (applyError true false false ⟨3, none⟩ 500 900000).trigger
      = some (false, 8000) ∧
    (applyError true false false ⟨3, none⟩ 500 900000).logs
      = [.logSystemMessage, .logInfo] := by
  have h := C6_apply_error_backoff true false ⟨3, none⟩ 500 900000 rfl
  exact ⟨h.1, by rw [h.2.1]; norm_num, h.2.2.1 rfl⟩

/-- Counterexample for C6 as stated: when another apply is already
scheduled (`scheduledApply` non-null), a failed non-intermediate apply
increments `failedUpdates` but triggers no retry at all — no delay of
`min(2 ^ failedUpdates * backoffIncrement, maxPollTime)` is scheduled —
and an `UpdatesLockedError` produces no info-level log either. -/
theorem C6_scheduled_apply_counterexample :
    (applyError true false false ⟨3, some (false, 5)⟩ 500 900000).failedUpdates
        = 4 ∧
    (applyError true false false ⟨3, some (false, 5)⟩ 500 900000).trigger
        = none ∧
    (applyError true false false ⟨3, some (false, 5)⟩ 500 900000).logs = [] ∧
    (none : Option (Bool × Nat)) ≠
      some (false, min (2 ^ 4 * 500) 900000) := by
  refine ⟨rfl, rfl, rfl, by decide⟩

end ApplyLoop

namespace StateStore

/-- C7: for every target-state object that is not an object, lacks a
`local` object, lacks `apps`, or carries a malformed device
configuration, `setTarget` raises a validation error carrying a
human-readable message and leaves the persisted target store unchanged:
no database transaction is started and `targetStateChanged` is not
emitted.  The specific messages produced by `validateState` for a
missing `local`, a missing or invalid `apps` and an invalid device
configuration are also pinned down. -/
theorem C7_set_target_validation (vST vA vE vDA vDD : String → Bool)
    (store : Store) (target : TState) :
    (∀ m, validateState vST vA vE vDA vDD target = .error m →
      setTarget vST vA vE vDA vDD store target =
        { result := .error m, store := store, txStarted := false,
          emittedTargetStateChanged := false }) ∧
    (validateState vST vA vE vDA vDD .notObject
        = .error "State must be an object") ∧
    (∀ dep, validateState vST vA vE vDA vDD (.obj none dep)
        = .error "Local state must be an object") ∧
    (∀ dep cfg, validateState vST vA vE vDA vDD
        (.obj (some ⟨none, none, cfg⟩) dep) = .error "Invalid apps") ∧
    (∀ dep apps cfg, vA apps = true → vE cfg = false →
      validateState vST vA vE vDA vDD
        (.obj (some ⟨none, some apps, some cfg⟩) dep)
          = .error "Invalid device configuration") := by
  refine ⟨?_, rfl, fun dep => rfl, ?_, ?_⟩
  · intro m hm
    unfold setTarget
    rw [hm]
  · intro dep cfg
    simp [validateState, validateLocalState, validateLocalState.validateAppsAndConfig]
  · intro dep apps cfg hA hE
    simp [validateState, validateLocalState,
      validateLocalState.validateAppsAndConfig, hA, hE]

/-- Witness for C7: a concrete target state with a well-formed `apps`
payload but a malformed device configuration is rejected with the
message `Invalid device configuration` and the store is untouched. -/
theorem C7_set_target_validation_witness :
    setTarget (fun _ => true) (fun _ => true) (fun _ => false)
        (fun _ => true) (fun _ => true)
        ⟨some "olddevice", "oldconfig", "oldapps"⟩
        (.obj (some ⟨none, some "apps", some "badConfig"⟩) none) =
      { result := .error "Invalid device configuration",
        store := ⟨some "olddevice", "oldconfig", "oldapps"⟩,
        txStarted := false, emittedTargetStateChanged := false } := by
  have h := C7_set_target_validation (fun _ => true) (fun _ => true)
    (fun _ => false) (fun _ => true) (fun _ => true)
    ⟨some "olddevice", "oldconfig", "oldapps"⟩
    (.obj (some ⟨none, some "apps", some "badConfig"⟩) none)
  exact h.1 "Invalid device configuration"
    (h.2.2.2.2 none "apps" "badConfig" rfl rfl)

end StateStore

namespace RebootApi

/-- C3: for every reboot or shutdown request, `applicationManager.stopAll`
is called before the host primitive (it is always the first effect); if
`stopAll` raises `UpdatesLocked` — which per the spec-modelled `stopAll`
happens exactly when a lock is held, the request `force` flag is not set
and `lockOverride` is false — the response is 423 and the host dbus
primitive is never invoked; any other error yields 500 without invoking
the primitive; on success the host primitive is invoked, `shuttingDown`
is set to true, the `shutdown` event is emitted, and the response is 202
with body `Data: OK`, `Error: null`. -/
theorem C3_reboot_shutdown_sequencing (a : HostAction)
    (bodyForce lockOverride : Bool) (stopAll : Bool → StopAllOutcome) :
    ((rebootOrShutdown a bodyForce lockOverride stopAll).events.head? =
        some (.evStopAll (bodyForce || lockOverride))) ∧
    (∀ m, stopAll (bodyForce || lockOverride) = .updatesLocked m →
      (rebootOrShutdown a bodyForce lockOverride stopAll).status = 423 ∧
      (rebootOrShutdown a bodyForce lockOverride stopAll).error = some m ∧
      REv.evDbus a ∉ (rebootOrShutdown a bodyForce lockOverride stopAll).events) ∧
    (∀ m, stopAll (bodyForce || lockOverride) = .otherErr m →
      (rebootOrShutdown a bodyForce lockOverride stopAll).status = 500 ∧
      REv.evDbus a ∉ (rebootOrShutdown a bodyForce lockOverride stopAll).events) ∧
    (stopAll (bodyForce || lockOverride) = .ok →
      (rebootOrShutdown a bodyForce lockOverride stopAll).status = 202 ∧
      (rebootOrShutdown a bodyForce lockOverride stopAll).data = "OK" ∧
      (rebootOrShutdown a bodyForce lockOverride stopAll).error = none ∧
      (rebootOrShutdown a bodyForce lockOverride stopAll).shuttingDown = true ∧
      (rebootOrShutdown a bodyForce lockOverride stopAll).events =
        [.evStopAll (bodyForce || lockOverride),
         .evLogSystem (match a with
            | .reboot => "Rebooting"
            | .shutdown => "Shutting down"),
         .evDbus a, .evEmitShutdown]) ∧
    (∀ locksHeld : Bool, locksHeld = true → bodyForce = false →
      lockOverride = false →
      (rebootOrShutdown a bodyForce lockOverride (stopAllModel locksHeld)).status
          = 423 ∧
      REv.evDbus a ∉
        (rebootOrShutdown a bodyForce lockOverride (stopAllModel locksHeld)).events) := by
  refine ⟨?_, ?_, ?_, ?_, ?_⟩
  · rcases h : stopAll (bodyForce || lockOverride) with _ | m | m <;>
      simp [rebootOrShutdown, executeStepAction, runHostAction, h]
  · intro m hm
    simp [rebootOrShutdown, executeStepAction, runHostAction, hm]
  · intro m hm
    simp [rebootOrShutdown, executeStepAction, runHostAction, hm]
  · intro hm
    simp [rebootOrShutdown, executeStepAction, runHostAction, hm]
  · intro locksHeld hl hbf hlo
    subst hl; subst hbf; subst hlo
    simp [rebootOrShutdown, executeStepAction, runHostAction, stopAllModel]

/-- Witness for C3: with a lock held, no request `force` and no
`lockOverride`, a reboot request answers 423 and never invokes the dbus
reboot primitive. -/
theorem C3_reboot_shutdown_sequencing_witness :
    (rebootOrShutdown .reboot false false (stopAllModel true)).status = 423 ∧
    REv.evDbus .reboot ∉
      (rebootOrShutdown .reboot false false (stopAllModel true)).events := by
  exact (C3_reboot_shutdown_sequencing .reboot false false
    (stopAllModel true)).2.2.2.2 true rfl rfl rfl

end RebootApi

namespace DeviceApi

/-- C1: for every start-service request whose app id is a valid in-scope
nonzero integer and which names an existing current service, the handler
responds 200 with body `OK`, invokes the step executor exactly once with
a `start` step carrying `wait: true`, and the executor takes no advisory
lock for it — `start` is on the always-lock-free list, so the advisory
lock is not taken regardless of any lock files present. -/
theorem C1_start_service_bypasses_locks (paramAppId : String) (body : Body)
    (scope : Scope) (currentApps : Int → Option App) (targetApp : App)
    (a : Int) (app : App) (svc : Service)
    (h1 : checkInt paramAppId = some a) (h2 : a ≠ 0)
    (h3 : isScoped scope [a] = true)
    (h4 : currentApps a = some app)
    (h5 : (match body.imageId with
           | some iid => app.services.find? (fun (s : Service) => s.imageId == iid)
           | none => app.services.find?
              (fun (s : Service) => some s.serviceName == body.serviceName))
          = some svc) :
    (handleServiceAction .start paramAppId body scope currentApps targetApp).1
        = .sendRes 200 "OK" ∧
    execSteps
        (handleServiceAction .start paramAppId body scope currentApps targetApp).2
      = [generateStep .start svc
          (match body.imageId with
           | some iid => targetApp.services.find?
              (fun (s : Service) => s.imageId == iid)
           | none => targetApp.services.find?
              (fun (s : Service) => some s.serviceName == body.serviceName))
          true] ∧
    advisoryLocksTaken
        (handleServiceAction .start paramAppId body scope currentApps targetApp).2
      = [] := by
  have hfalsy : jsFalsy (checkInt paramAppId) = false := by
    rw [h1]
    simpa [jsFalsy] using h2
  have hgetD : (checkInt paramAppId).getD 0 = a := by rw [h1]; rfl
  rcases hbi : body.imageId with _ | iid
  · rcases hbs : body.serviceName with _ | n
    · rw [hbi, hbs] at h5
      simp only at h5
      have := List.find?_some h5
      simp at this
    · rw [hbi, hbs] at h5
      have h5' : List.find?
          (fun (s : Service) => some s.serviceName == some n) app.services
            = some svc := h5
      simp only [handleServiceAction, hfalsy, hgetD, h3, h4, hbi, hbs,
        Bool.not_true, if_false, Option.isNone_none, Option.isNone_some,
        Bool.false_and, Bool.and_false]
      rw [h5']
      simp [execSteps, advisoryLocksTaken, stepAdvisoryLocks, lockFreeActions,
        generateStep]
  · rw [hbi] at h5
    have h5' : List.find?
        (fun (s : Service) => s.imageId == iid) app.services = some svc := h5
    simp only [handleServiceAction, hfalsy, hgetD, h3, h4, hbi,
      Bool.not_true, if_false, Option.isNone_none, Option.isNone_some,
      Bool.false_and, Bool.and_false]
    rw [h5']
    simp [execSteps, advisoryLocksTaken, stepAdvisoryLocks, lockFreeActions,
      generateStep]

/-- Witness for C1: the spec scenario — app 1658654, scoped key, body
`serviceName: main` — answers 200 `OK`, the executor receives exactly
one `start` step with `wait: true`, and no advisory lock is taken. -/
theorem C1_start_service_bypasses_locks_witness :
    (handleServiceAction .start "1658654" ⟨none, some "main", false⟩
        (Scope.apps [1658654]) currentAppsMain appMain).1
      = .sendRes 200 "OK" ∧
    execSteps (handleServiceAction .start "1658654" ⟨none, some "main", false⟩
        (Scope.apps [1658654]) currentAppsMain appMain).2
      = [generateStep .start svcMain (some svcMain) true] ∧
    advisoryLocksTaken
        (handleServiceAction .start "1658654" ⟨none, some "main", false⟩
          (Scope.apps [1658654]) currentAppsMain appMain).2
      = [] := by
  exact C1_start_service_bypasses_locks "1658654" ⟨none, some "main", false⟩
    (Scope.apps [1658654]) currentAppsMain appMain 1658654 appMain svcMain
    (by decide) (by decide) (by decide) (by decide) (by decide)

end DeviceApi

namespace DeviceApi

/-- C4 (amended): for every control-API service mutation (start-service,
stop-service, restart-service) whose app id is a valid nonzero integer
within the key scope but for which no current application with that app
id exists, the handler responds with status 404 and the app-not-found
message, and the executor is not invoked. -/
theorem C4_unknown_app_responds_404 (action : Action) (paramAppId : String)
    (body : Body) (scope : Scope) (currentApps : Int → Option App)
    (targetApp : App) (a : Int)
    (h1 : checkInt paramAppId = some a) (h2 : a ≠ 0)
    (h3 : isScoped scope [a] = true) (h4 : currentApps a = none) :
    handleServiceAction action paramAppId body scope currentApps targetApp
      = (.sendRes 404 appNotFoundMessage, []) := by
  have hfalsy : jsFalsy (checkInt paramAppId) = false := by
    rw [h1]
    simpa [jsFalsy] using h2
  have hgetD : (checkInt paramAppId).getD 0 = a := by rw [h1]; rfl
  simp [handleServiceAction, hfalsy, hgetD, h3, h4]

/-- Counterexample for C4 as stated: a start-service request for app
1658654 with a valid in-scope app id and no current application with
that id responds 404, not the claimed 409. -/
theorem C4_status_counterexample :
    ((handleServiceAction .start "1658654" ⟨none, some "main", false⟩
        (Scope.apps [1658654]) (fun _ => none) appMain).1).status
      = some 404 ∧
    (some 404 : Option Nat) ≠ some 409 := by
  refine ⟨by decide, by decide⟩

/-- Witness for C4 (amended): the concrete request of the
counterexample yields exactly the 404 app-not-found response with no
executor invocation. -/
theorem C4_unknown_app_responds_404_witness :
    handleServiceAction .start "1658654" ⟨none, some "main", false⟩
        (Scope.apps [1658654]) (fun _ => none) appMain
      = (.sendRes 404 appNotFoundMessage, []) := by
  exact C4_unknown_app_responds_404 .start "1658654" ⟨none, some "main", false⟩
    (Scope.apps [1658654]) (fun _ => none) appMain 1658654
    (by decide) (by decide) (by decide) rfl

/-- C10: for every service-action, purge, or app-restart request whose
`:appId` path parameter does not parse to a nonzero integer — including
the literal `0`, which parses successfully but is falsy — the handler
responds 400 with message `Missing app id` and neither the scope check
nor the executor runs (the event list is empty whatever the scope). -/
theorem C10_falsy_appid_guard (action : Action) (paramAppId : String)
    (body : Body) (bodyForce : Bool) (scope : Scope)
    (currentApps : Int → Option App) (targetApp : App)
    (h : checkInt paramAppId = none ∨ checkInt paramAppId = some 0) :
    handleServiceAction action paramAppId body scope currentApps targetApp
      = (.jsonRes 400 "Missing app id", []) ∧
    purgeHandler paramAppId bodyForce scope
      = (.jsonRes 400 "Missing app id", []) ∧
    appRestartHandler paramAppId bodyForce scope
      = (.jsonRes 400 "Missing app id", []) := by
  have hfalsy : jsFalsy (checkInt paramAppId) = true := by
    rcases h with h | h <;> rw [h] <;> rfl
  exact ⟨by simp [handleServiceAction, hfalsy],
    by simp [purgeHandler, hfalsy],
    by simp [appRestartHandler, hfalsy]⟩

/-- Witness for C10: the literal path parameter `0` parses successfully
to the integer 0 and still yields the 400 `Missing app id` response on
all three handlers, with no side effect. -/
theorem C10_falsy_appid_guard_witness :
    handleServiceAction .start "0" ⟨none, some "main", false⟩ Scope.star
        currentAppsMain appMain = (.jsonRes 400 "Missing app id", []) ∧
    purgeHandler "0" false Scope.star = (.jsonRes 400 "Missing app id", []) ∧
    appRestartHandler "0" false Scope.star
      = (.jsonRes 400 "Missing app id", []) ∧
    checkInt "0" = some 0 := by
  have h := C10_falsy_appid_guard .start "0" ⟨none, some "main", false⟩ false
    Scope.star currentAppsMain appMain (Or.inr (by decide))
  exact ⟨h.1, h.2.1, h.2.2, by decide⟩

end DeviceApi

namespace DeviceApi

theorem isScoped_apps_single (A x : Int) :
    isScoped (Scope.apps [A]) [x] = decide (x = A) := by
  simp [isScoped]

/-- C8: for every request authenticated with a key scoped to
application `A` and every endpoint addressing an app id `B ≠ A`, the
request is rejected — 401 for the service-action, purge and app-restart
handlers, 409 for the per-app state endpoint — without executing any
step; and every listing endpoint (`applications/state`, `state/status`,
`containerId`, `cleanup-volumes`) excludes services, images and volumes
whose app id is outside the key scope. -/
theorem C8_scoped_key_isolation (A B : Int) (hAB : B ≠ A) :
    (∀ (action : Action) (paramAppId : String) (body : Body)
        (currentApps : Int → Option App) (targetApp : App),
      checkInt paramAppId = some B → B ≠ 0 →
      handleServiceAction action paramAppId body (Scope.apps [A])
          currentApps targetApp
        = (.jsonRes 401 "Application is not available", [])) ∧
    (∀ (paramAppId : String) (bodyForce : Bool),
      checkInt paramAppId = some B → B ≠ 0 →
      purgeHandler paramAppId bodyForce (Scope.apps [A])
        = (.jsonRes 401 "Application is not available", [])) ∧
    (∀ (paramAppId : String) (bodyForce : Bool),
      checkInt paramAppId = some B → B ≠ 0 →
      appRestartHandler paramAppId bodyForce (Scope.apps [A])
        = (.jsonRes 401 "Application is not available", [])) ∧
    (∀ (paramAppId : String) (statusAppIds : List Int),
      checkInt paramAppId = some B → B ≠ 0 →
      appStateHandler paramAppId (Scope.apps [A]) statusAppIds
        = .jsonRes 409 ("Application ID does not exist: " ++ toString B)) ∧
    (∀ (apps : List DBApp) (app : DBApp),
      app ∈ applicationsStateScopedApps (Scope.apps [A]) apps →
        app.appId = A) ∧
    (∀ (imgs : List Img) (img : Img),
      img ∈ applicationsStateScopedImages (Scope.apps [A]) imgs →
        img.appId = A) ∧
    (∀ (pending : Bool) (services : List Service) (imgs : List Img)
        (commitForApp : Int → Option String),
      (∀ c ∈ (stateStatusHandler (Scope.apps [A]) pending services imgs
          commitForApp).containers, c.appId = A) ∧
      (∀ i ∈ (stateStatusHandler (Scope.apps [A]) pending services imgs
          commitForApp).images, i.appId = A)) ∧
    (∀ (services : List Service) (name : String) (cid : Option String),
      containerIdHandler (Scope.apps [A]) services (some name)
          = .single 200 cid →
      ∃ s ∈ services, s.appId = A ∧ s.serviceName = name ∧
        s.containerId = cid) ∧
    (∀ (services : List Service) (entries : List (String × Option String)),
      containerIdHandler (Scope.apps [A]) services none = .many 200 entries →
      ∀ e ∈ entries, ∃ s ∈ services, s.appId = A ∧
        e = (s.serviceName, s.containerId)) ∧
    (∀ (targetApps : List (Int × TargetAppVolumes)) (v : String),
      v ∈ cleanupVolumesReferenced (Scope.apps [A]) targetApps →
      ∃ p ∈ targetApps, p.1 = A ∧
        ∃ vol ∈ p.2.volumes, v = generateDockerName p.1 vol) := by
  have hsc : isScoped (Scope.apps [A]) [B] = false := by
    simp [isScoped, hAB]
  have hmem : ∀ x : Int, isScoped (Scope.apps [A]) [x] = true → x = A := by
    intro x hx
    simpa [isScoped] using hx
  refine ⟨?_, ?_, ?_, ?_, ?_, ?_, ?_, ?_, ?_, ?_⟩
  · intro action paramAppId body currentApps targetApp h1 h2
    have hfalsy : jsFalsy (checkInt paramAppId) = false := by
      rw [h1]
      simpa [jsFalsy] using h2
    have hgetD : (checkInt paramAppId).getD 0 = B := by rw [h1]; rfl
    simp [handleServiceAction, hfalsy, hgetD, hsc]
  · intro paramAppId bodyForce h1 h2
    have hfalsy : jsFalsy (checkInt paramAppId) = false := by
      rw [h1]
      simpa [jsFalsy] using h2
    have hgetD : (checkInt paramAppId).getD 0 = B := by rw [h1]; rfl
    simp [purgeHandler, hfalsy, hgetD, hsc]
  · intro paramAppId bodyForce h1 h2
    have hfalsy : jsFalsy (checkInt paramAppId) = false := by
      rw [h1]
      simpa [jsFalsy] using h2
    have hgetD : (checkInt paramAppId).getD 0 = B := by rw [h1]; rfl
    simp [appRestartHandler, hfalsy, hgetD, hsc]
  · intro paramAppId statusAppIds h1 h2
    have hfalsy : jsFalsy (checkInt paramAppId) = false := by
      rw [h1]
      simpa [jsFalsy] using h2
    have hgetD : (checkInt paramAppId).getD 0 = B := by rw [h1]; rfl
    simp [appStateHandler, hfalsy, hgetD, hsc]
  · intro apps app hmemApp
    rw [applicationsStateScopedApps, List.mem_filter] at hmemApp
    exact hmem app.appId hmemApp.2
  · intro imgs img hmemImg
    rw [applicationsStateScopedImages, List.mem_filter] at hmemImg
    exact hmem img.appId hmemImg.2
  · intro pending services imgs commitForApp
    constructor
    · intro c hc
      simp only [stateStatusHandler, List.mem_filter] at hc
      exact hmem c.appId hc.1.2
    · intro i hi
      simp only [stateStatusHandler, List.mem_filter] at hi
      exact hmem i.appId hi.1.2
  · intro services name cid hresp
    simp only [containerIdHandler] at hresp
    rcases hf : (services.filter fun s =>
        isScoped (Scope.apps [A]) [s.appId]).find?
          (fun s => s.serviceName == name) with _ | svc
    · rw [hf] at hresp
      simp at hresp
    · rw [hf] at hresp
      have hin := List.mem_of_find?_eq_some hf
      have hpred := List.find?_some hf
      rw [List.mem_filter] at hin
      refine ⟨svc, hin.1, hmem svc.appId hin.2, ?_, ?_⟩
      · simpa using hpred
      · have := hresp
        simp at this
        exact this
  · intro services entries hresp e he
    simp only [containerIdHandler, ContainerIdResp.many.injEq] at hresp
    rw [← hresp.2] at he
    rw [List.mem_map] at he
    rcases he with ⟨s, hs, hse⟩
    rw [List.mem_filter] at hs
    exact ⟨s, hs.1, hmem s.appId hs.2, hse.symm⟩
  · intro targetApps v hv
    simp only [cleanupVolumesReferenced, List.mem_flatten, List.mem_map] at hv
    rcases hv with ⟨l, ⟨p, hp, hpl⟩, hvl⟩
    rw [← hpl] at hvl
    by_cases hps : isScoped (Scope.apps [A]) [p.1] = true
    · rw [if_pos hps] at hvl
      rw [List.mem_map] at hvl
      rcases hvl with ⟨vol, hvol, hveq⟩
      exact ⟨p, hp, hmem p.1 hps, vol, hvol, hveq.symm⟩
    · rw [if_neg hps] at hvl
      simp at hvl

end DeviceApi

namespace DeviceApi

/-- Witness for C8: with a key scoped to app 1658654, a stop-service
request addressing app 222222 is rejected with 401 and no step, and the
state-status listing for a device running both apps never reports the
out-of-scope service of app 222222. -/
theorem C8_scoped_key_isolation_witness :
    handleServiceAction .stop "222222" ⟨none, some "other", false⟩
        (Scope.apps [1658654]) currentAppsMain appMain
      = (.jsonRes 401 "Application is not available", []) ∧
    svcOther ∉ (stateStatusHandler (Scope.apps [1658654]) false
        [svcMain, svcOther] [] (fun _ => none)).containers := by
  have h := C8_scoped_key_isolation 1658654 222222 (by decide)
  constructor
  · exact h.1 .stop "222222" ⟨none, some "other", false⟩ currentAppsMain
      appMain (by decide) (by decide)
  · intro hmem
    have hA := (h.2.2.2.2.2.2.1 false [svcMain, svcOther] []
      (fun _ => none)).1 svcOther hmem
    rw [show svcOther.appId = 222222 from rfl] at hA
    norm_num at hA

end DeviceApi
